import Mathlib

/-!
# XDesigner persistence core — shallow embedding

A shallow embedding of the persistence core of the XDesigner repository
(`src/core/models.py`, `src/database/repository.py`, `src/database/service.py`,
`src/database/cache.py`, `src/database/connection.py`) together with theorems
about its geometry validation, service orchestration, cache behaviour,
transactional repository operations and connection retry policy.

Python floats are modelled as `ℚ`; SQL tables as Lean lists with explicit
identity counters; `pyodbc` driver failures as explicit fault flags / oracles;
the two statements of a transaction commit together or roll back to the
original state, mirroring `DatabaseConnection.transaction`.
-/

namespace XDesigner

/-! ## Python / SQL string semantics -/

/-- Python `str.isupper()` restricted to ASCII: at least one cased character and
no lowercase character.  (`Field.validate` uses `self.Nombre_Campo.isupper()`.) -/
def pyIsUpper (s : String) : Bool :=
  s.data.any (fun c => c.isAlpha) && s.data.all (fun c => !c.isLower)

/-- Python `str.upper()` restricted to ASCII (used by `rename_field`). -/
def pyUpper (s : String) : String :=
  ⟨s.data.map Char.toUpper⟩

/-- Python `str.strip()` restricted to ASCII whitespace. -/
def pyStrip (s : String) : String :=
  ⟨((s.data.dropWhile Char.isWhitespace).reverse.dropWhile Char.isWhitespace).reverse⟩

/-- `needle` is a contiguous prefix of `hay` (character lists). -/
def listStarts [DecidableEq α] : List α → List α → Bool
  | [], _ => true
  | _ :: _, [] => false
  | a :: as, b :: bs => decide (a = b) && listStarts as bs

/-- `needle` occurs contiguously inside `hay`: the semantics of SQL
`LIKE '%needle%'` used by `TemplateRepository.search_templates`. -/
def listOccurs [DecidableEq α] (needle : List α) : List α → Bool
  | [] => needle.isEmpty
  | c :: rest => listStarts needle (c :: rest) || listOccurs needle rest

/-! ## Data model (`src/core/models.py`) -/

/-- `RegionType(value)` succeeds exactly on these four strings
(`src/core/constants.py`). -/
def validRegionType (s : String) : Bool :=
  s == "OMR" || s == "ICR" || s == "BARCODE" || s == "XMARK"

/-- Validation failures of `Field.validate`, one constructor per `raise`
site, in source order. -/
inductive FieldVErr where
  | emptyName
  | notUppercase
  | badType
  | negativeCoord
  | nonPositiveDim
  | negativePage
  | nonPositiveTemplate
deriving DecidableEq, Repr

/-- Validation failures of `Template.validate`, in source order. -/
inductive TemplateVErr where
  | emptyName
  | emptyImage
  | nonPositiveGrade
deriving DecidableEq, Repr

/-- `Field` from `src/core/models.py`.  Coordinates are inches (Python floats,
modelled as `ℚ`).  `fdpi` models the non-column attribute `_dpi`, which
defaults to 300 at construction (`init=False`) and is only ever changed by
`from_pixels`; rows read back from the database therefore always carry 300. -/
structure Field where
  ID : Int
  ID_Template : Int
  Nombre_Campo : String
  Tipo_Campo : String
  Cord_x : ℚ
  Cord_y : ℚ
  Cord_width : ℚ
  Cord_height : ℚ
  NroPagina : Int
  IdRectangulo : Int
  fdpi : Int := 300
deriving DecidableEq, Repr

/-- `Field.validate`: the sequence of checks of `models.py`, returning the
first failure. -/
def Field.validate (f : Field) : Except FieldVErr Unit :=
  if f.Nombre_Campo = "" then .error .emptyName
  else if !pyIsUpper f.Nombre_Campo then .error .notUppercase
  else if !validRegionType f.Tipo_Campo then .error .badType
  else if f.Cord_x < 0 ∨ f.Cord_y < 0 ∨ f.Cord_width < 0 ∨ f.Cord_height < 0 then
    .error .negativeCoord
  else if f.Cord_width ≤ 0 ∨ f.Cord_height ≤ 0 then .error .nonPositiveDim
  else if f.NroPagina < 0 then .error .negativePage
  else if f.ID_Template ≤ 0 then .error .nonPositiveTemplate
  else .ok ()

/-- `Field.intersects` from `models.py`: different pages never intersect;
otherwise the separation test uses strict `<` on the far edges. -/
def Field.intersects (f other : Field) : Bool :=
  if f.NroPagina ≠ other.NroPagina then false
  else
    !(decide (f.Cord_x + f.Cord_width < other.Cord_x) ||
      decide (other.Cord_x + other.Cord_width < f.Cord_x) ||
      decide (f.Cord_y + f.Cord_height < other.Cord_y) ||
      decide (other.Cord_y + other.Cord_height < f.Cord_y))

/-- `Template` from `models.py`.  `dpi` models the resolved value of the
`Template.dpi` property (`self._dpi or 300`): it is a function of the image
file referenced by `Imagen`, not a database column, and travels with the
image reference.  `_page_count` is omitted (unused by the persistence core). -/
structure Template where
  ID : Int
  Nombre : String
  Xmp : String
  Imagen : String
  ID_Grado : Int
  dpi : Int := 300
deriving DecidableEq, Repr

/-- `Template.validate` from `models.py`. -/
def Template.validate (t : Template) : Except TemplateVErr Unit :=
  if t.Nombre = "" then .error .emptyName
  else if t.Imagen = "" then .error .emptyImage
  else if t.ID_Grado ≤ 0 then .error .nonPositiveGrade
  else .ok ()

/-! ## Database state and repository (`src/database/repository.py`)

The two tables `Tbl_Template` and `Tbl_Fields` are lists of rows; the
`SCOPE_IDENTITY()` / `OUTPUT INSERTED.ID` mechanism is modelled by explicit
next-identity counters. -/

structure DBState where
  templates : List Template := []
  fields : List Field := []
  nextTemplateId : Int := 1
  nextFieldId : Int := 1
deriving DecidableEq, Repr

/-- Reading a `Tbl_Fields` row back constructs a Python `Field` whose `_dpi`
is the default 300 (`_dpi` is not a column). -/
def readRow (f : Field) : Field := { f with fdpi := 300 }

/-- `ORDER BY Nombre_Campo` (used by `get_fields_by_page`). -/
def orderByName (l : List Field) : List Field :=
  l.insertionSort (fun a b => a.Nombre_Campo ≤ b.Nombre_Campo)

/-- `ORDER BY NroPagina, Nombre_Campo` (used by `get_template_fields`). -/
def orderByPageName (l : List Field) : List Field :=
  l.insertionSort (fun a b =>
    a.NroPagina < b.NroPagina ∨ (a.NroPagina = b.NroPagina ∧ a.Nombre_Campo ≤ b.Nombre_Campo))

/-- `ORDER BY Nombre` on templates. -/
def orderTemplates (l : List Template) : List Template :=
  l.insertionSort (fun a b => a.Nombre ≤ b.Nombre)

def DBState.get_template_by_id (s : DBState) (tid : Int) : Option Template :=
  s.templates.find? (fun t => t.ID == tid)

def DBState.get_template_fields (s : DBState) (tid : Int) : List Field :=
  (orderByPageName (s.fields.filter (fun f => f.ID_Template == tid))).map readRow

def DBState.get_fields_by_page (s : DBState) (tid page : Int) : List Field :=
  (orderByName (s.fields.filter (fun f => f.ID_Template == tid && f.NroPagina == page))).map readRow

def DBState.get_field_by_id (s : DBState) (fid : Int) : Option Field :=
  (s.fields.find? (fun f => f.ID == fid)).map readRow

/-- `search_templates`: `WHERE Nombre LIKE '%text%' ORDER BY Nombre`. -/
def DBState.search_templates (s : DBState) (text : String) : List Template :=
  orderTemplates (s.templates.filter (fun t => listOccurs text.data t.Nombre.data))

/-- The error taxonomy surfaced by repository and service operations.  Each
constructor corresponds to one `raise` site; constructors carry the data
interpolated into the Python message. -/
inductive SvcError where
  | templateNotFound (id : Int)
  | fieldNotFound (id : Int)
  | imageNotFound (path : String)
  | duplicateTemplateName (name : String)
  | duplicateFieldName (name : String)
  | invalidFieldType
  | belowMinSize
  | overlapsWith (name : String)
  | negativeCoords
  | emptyName
  | nameTooLong
  | txnFailed
  | dbFieldInvalid (e : FieldVErr)
  | dbTemplateInvalid (e : TemplateVErr)
deriving DecidableEq, Repr

/-- Injected driver failures inside a transaction body. -/
inductive TxnErr where
  | fault
  | missingSource
deriving DecidableEq, Repr

/-- `TemplateRepository.create_template`: re-validates, inserts, returns the
new identity. -/
def TemplateRepository.create_template (s : DBState) (t : Template) :
    Except SvcError (Int × DBState) :=
  match t.validate with
  | .error e => .error (.dbTemplateInvalid e)
  | .ok _ =>
    let newId := s.nextTemplateId
    .ok (newId, { s with
      templates := s.templates ++ [{ t with ID := newId }],
      nextTemplateId := newId + 1 })

/-- `TemplateRepository.update_template`: re-validates, updates the columns of
the row with matching `ID`, returns `rowcount > 0`. -/
def TemplateRepository.update_template (s : DBState) (t : Template) :
    Except SvcError (Bool × DBState) :=
  match t.validate with
  | .error e => .error (.dbTemplateInvalid e)
  | .ok _ =>
    let affected : Nat := s.templates.countP (fun r => r.ID == t.ID)
    .ok (decide (0 < affected), { s with
      templates := s.templates.map (fun r => if r.ID == t.ID then { t with ID := r.ID } else r) })

/-- `TemplateRepository.create_field`: re-runs `Field.validate` (failures are
wrapped as a data-access error), inserts, returns the new identity. -/
def TemplateRepository.create_field (s : DBState) (f : Field) :
    Except SvcError (Int × DBState) :=
  match f.validate with
  | .error e => .error (.dbFieldInvalid e)
  | .ok _ =>
    let newId := s.nextFieldId
    .ok (newId, { s with
      fields := s.fields ++ [{ f with ID := newId }],
      nextFieldId := newId + 1 })

/-- `TemplateRepository.update_field`: re-runs `Field.validate`, updates all
non-key columns of rows matching `ID = ? AND ID_Template = ?`, returns
`rowcount > 0`. -/
def TemplateRepository.update_field (s : DBState) (f : Field) :
    Except SvcError (Bool × DBState) :=
  match f.validate with
  | .error e => .error (.dbFieldInvalid e)
  | .ok _ =>
    let affected : Nat := s.fields.countP (fun r => r.ID == f.ID && r.ID_Template == f.ID_Template)
    .ok (decide (0 < affected), { s with
      fields := s.fields.map (fun r =>
        if r.ID == f.ID && r.ID_Template == f.ID_Template then { f with fdpi := r.fdpi } else r) })

/-- `TemplateRepository.delete_field`. -/
def TemplateRepository.delete_field (s : DBState) (fid : Int) : Bool × DBState :=
  let affected : Nat := s.fields.countP (fun r => r.ID == fid)
  (decide (0 < affected), { s with fields := s.fields.filter (fun r => !(r.ID == fid)) })

/-- Transaction body of `TemplateRepository.delete_template`: first
`DELETE FROM Tbl_Fields WHERE ID_Template = ?`, then
`DELETE FROM Tbl_Template WHERE ID = ?`; `cursor.rowcount` after the second
statement counts deleted template rows.  `f1`/`f2` inject a driver failure
before the respective statement. -/
def deleteTemplateBody (s : DBState) (tid : Int) (f1 f2 : Bool) :
    Except TxnErr (Bool × DBState) :=
  if f1 then .error .fault else
  let s1 := { s with fields := s.fields.filter (fun f => !(f.ID_Template == tid)) }
  if f2 then .error .fault else
  let affected : Nat := s1.templates.countP (fun t => t.ID == tid)
  .ok (decide (0 < affected), { s1 with templates := s1.templates.filter (fun t => !(t.ID == tid)) })

/-- `delete_template` under `DatabaseConnection.transaction`: on success the
body's state is committed, on any failure the state rolls back unchanged.
The first component is the call's outcome, the second the observable
database state afterwards. -/
def TemplateRepository.delete_template_fx (s : DBState) (tid : Int) (f1 f2 : Bool) :
    Except TxnErr (Bool × DBState) × DBState :=
  match deleteTemplateBody s tid f1 f2 with
  | .ok (b, s') => (.ok (b, s'), s')
  | .error e => (.error e, s)

/-- `delete_template` on a fault-free driver. -/
def TemplateRepository.delete_template (s : DBState) (tid : Int) : Bool × DBState :=
  match deleteTemplateBody s tid false false with
  | .ok r => r
  | .error _ => (false, s)

/-- Transaction body of `TemplateRepository.duplicate_template`: one
`INSERT ... OUTPUT INSERTED.ID SELECT ?, Xmp, Imagen, ID_Grado ... WHERE ID = ?`
for the template row, then one `INSERT ... SELECT` copying every field row of
the source under the new template id (each copy receives a fresh identity).
When the source row is missing the first insert copies nothing and the
`OUTPUT` clause yields no id (`fetchval` gives `NULL`), so the fields insert
cannot proceed; this is modelled as a transaction failure. -/
def duplicateTemplateBody (s : DBState) (tid : Int) (nn : String) (f1 f2 : Bool) :
    Except TxnErr (Int × DBState) :=
  if f1 then .error .fault else
  match s.get_template_by_id tid with
  | none => .error .missingSource
  | some t =>
    let newTid := s.nextTemplateId
    let s1 := { s with
      templates := s.templates ++ [{ t with ID := newTid, Nombre := nn }],
      nextTemplateId := newTid + 1 }
    if f2 then .error .fault else
    let src := s1.fields.filter (fun f => f.ID_Template == tid)
    let copies := src.enum.map (fun p => { p.2 with
      ID := s1.nextFieldId + (p.1 : Int), ID_Template := newTid })
    .ok (newTid, { s1 with
      fields := s1.fields ++ copies,
      nextFieldId := s1.nextFieldId + (src.length : Int) })

/-- `duplicate_template` under `DatabaseConnection.transaction`:
commit on success, roll back to the original state on any failure. -/
def TemplateRepository.duplicate_template_fx (s : DBState) (tid : Int) (nn : String)
    (f1 f2 : Bool) : Except TxnErr (Int × DBState) × DBState :=
  match duplicateTemplateBody s tid nn f1 f2 with
  | .ok (i, s') => (.ok (i, s'), s')
  | .error e => (.error e, s)

/-- `duplicate_template` on a fault-free driver. -/
def TemplateRepository.duplicate_template (s : DBState) (tid : Int) (nn : String) :
    Except SvcError (Int × DBState) :=
  match duplicateTemplateBody s tid nn false false with
  | .ok r => .ok r
  | .error _ => .error .txnFailed

/-! ## Cache (`src/database/cache.py`) -/

structure CacheEntry (α : Type) where
  key : String
  value : α
  timestamp : Nat
deriving DecidableEq, Repr

/-- `Cache`: a key→value store with per-entry timestamps and a time-to-live. -/
structure Cache (α : Type) where
  entries : List (CacheEntry α) := []
  timeout : Nat := 300
deriving DecidableEq, Repr

/-- `Cache.get`: a hit is served unless older than the timeout, in which case
the entry is dropped and the lookup misses. -/
def Cache.get (c : Cache α) (now : Nat) (k : String) : Option α × Cache α :=
  match c.entries.find? (fun e => e.key == k) with
  | none => (none, c)
  | some e =>
    if c.timeout < now - e.timestamp then
      (none, { c with entries := c.entries.filter (fun e2 => !(e2.key == k)) })
    else (some e.value, c)

/-- `Cache.set`: stores under `k` with the current timestamp (dict assignment
replaces any previous entry). -/
def Cache.set (c : Cache α) (now : Nat) (k : String) (v : α) : Cache α :=
  { c with entries := (c.entries.filter (fun e => !(e.key == k))) ++ [⟨k, v, now⟩] }

/-- `Cache.clear`. -/
def Cache.clear (c : Cache α) : Cache α := { c with entries := [] }

/-- An object that may carry a `_cache` attribute (`hasattr(self, '_cache')`). -/
structure CachedObj (σ α : Type) where
  inner : σ
  cacheAttr : Option (Cache α)
deriving DecidableEq, Repr

/-- The `cache_invalidator` decorator: run the wrapped write, then clear the
entire cache when the receiver has one. -/
def cache_invalidator (f : σ → β × σ) (o : CachedObj σ α) : β × CachedObj σ α :=
  let r := f o.inner
  (r.1, { inner := r.2, cacheAttr := o.cacheAttr.map Cache.clear })

/-! ## Service (`src/database/service.py`)

`TemplateService` holds a repository over the database state; the filesystem
(`Path(...).exists()`) is modelled by the set of image paths present on disk.
`cacheAttr` models a `_cache` attribute: `service.py` defines no method
wrapped with `cache_decorator`/`cache_invalidator`, so no service operation
reads or writes it. -/

structure ServiceState where
  db : DBState := {}
  imagesOnDisk : List String := []
  cacheAttr : Option (Cache (List Field)) := none
deriving DecidableEq, Repr

/-- Lift a database-level operation to the service state: the service's only
mutable collaborator on these paths is the repository-backed store. -/
def runService (g : ServiceState → Except SvcError (α × DBState)) (s : ServiceState) :
    Except SvcError (α × ServiceState) :=
  match g s with
  | .ok (a, d) => .ok (a, { s with db := d })
  | .error e => .error e

/-- `TemplateService.create_template` (database-level part). -/
def TemplateService.create_template_db (s : ServiceState) (t : Template) :
    Except SvcError (Int × DBState) :=
  if !(s.imagesOnDisk.contains t.Imagen) then .error (.imageNotFound t.Imagen)
  else if (s.db.search_templates t.Nombre).any (fun r => r.Nombre == t.Nombre) then
    .error (.duplicateTemplateName t.Nombre)
  else TemplateRepository.create_template s.db t

def TemplateService.create_template (s : ServiceState) (t : Template) :
    Except SvcError (Int × ServiceState) :=
  runService (fun s => TemplateService.create_template_db s t) s

/-- `TemplateService.update_template` (database-level part). -/
def TemplateService.update_template_db (s : ServiceState) (t : Template) :
    Except SvcError (Bool × DBState) :=
  match s.db.get_template_by_id t.ID with
  | none => .error (.templateNotFound t.ID)
  | some _ =>
    if !(s.imagesOnDisk.contains t.Imagen) then .error (.imageNotFound t.Imagen)
    else if (s.db.search_templates t.Nombre).any
        (fun r => r.Nombre == t.Nombre && !(r.ID == t.ID)) then
      .error (.duplicateTemplateName t.Nombre)
    else TemplateRepository.update_template s.db t

def TemplateService.update_template (s : ServiceState) (t : Template) :
    Except SvcError (Bool × ServiceState) :=
  runService (fun s => TemplateService.update_template_db s t) s

/-- `TemplateService.delete_template` (database-level part). -/
def TemplateService.delete_template_db (s : ServiceState) (tid : Int) :
    Except SvcError (Bool × DBState) :=
  match s.db.get_template_by_id tid with
  | none => .error (.templateNotFound tid)
  | some _ => .ok (TemplateRepository.delete_template s.db tid)

def TemplateService.delete_template (s : ServiceState) (tid : Int) :
    Except SvcError (Bool × ServiceState) :=
  runService (fun s => TemplateService.delete_template_db s tid) s

/-- `TemplateService.create_field` (database-level part): template existence,
field type, minimum physical size at `20 / field._dpi` inches, then the
overlap scan over the other fields on the same template and page, naming the
first colliding field; only then the repository insert. -/
def TemplateService.create_field_db (s : ServiceState) (f : Field) :
    Except SvcError (Int × DBState) :=
  match s.db.get_template_by_id f.ID_Template with
  | none => .error (.templateNotFound f.ID_Template)
  | some _ =>
    if !validRegionType f.Tipo_Campo then .error .invalidFieldType
    else if f.Cord_width < 20 / (f.fdpi : ℚ) ∨ f.Cord_height < 20 / (f.fdpi : ℚ) then
      .error .belowMinSize
    else
      match (s.db.get_fields_by_page f.ID_Template f.NroPagina).find?
          (fun g => f.intersects g) with
      | some g => .error (.overlapsWith g.Nombre_Campo)
      | none => TemplateRepository.create_field s.db f

def TemplateService.create_field (s : ServiceState) (f : Field) :
    Except SvcError (Int × ServiceState) :=
  runService (fun s => TemplateService.create_field_db s f) s

/-- `TemplateService.update_field` (database-level part): field existence,
template existence, type, minimum size, overlap scan excluding itself, then
the repository update. -/
def TemplateService.update_field_db (s : ServiceState) (f : Field) :
    Except SvcError (Bool × DBState) :=
  match s.db.get_field_by_id f.ID with
  | none => .error (.fieldNotFound f.ID)
  | some _ =>
    match s.db.get_template_by_id f.ID_Template with
    | none => .error (.templateNotFound f.ID_Template)
    | some _ =>
      if !validRegionType f.Tipo_Campo then .error .invalidFieldType
      else if f.Cord_width < 20 / (f.fdpi : ℚ) ∨ f.Cord_height < 20 / (f.fdpi : ℚ) then
        .error .belowMinSize
      else
        match (s.db.get_fields_by_page f.ID_Template f.NroPagina).find?
            (fun g => !(g.ID == f.ID) && f.intersects g) with
        | some g => .error (.overlapsWith g.Nombre_Campo)
        | none => TemplateRepository.update_field s.db f

def TemplateService.update_field (s : ServiceState) (f : Field) :
    Except SvcError (Bool × ServiceState) :=
  runService (fun s => TemplateService.update_field_db s f) s

/-- `TemplateService.delete_field` (database-level part). -/
def TemplateService.delete_field_db (s : ServiceState) (fid : Int) :
    Except SvcError (Bool × DBState) :=
  match s.db.get_field_by_id fid with
  | none => .error (.fieldNotFound fid)
  | some _ => .ok (TemplateRepository.delete_field s.db fid)

def TemplateService.delete_field (s : ServiceState) (fid : Int) :
    Except SvcError (Bool × ServiceState) :=
  runService (fun s => TemplateService.delete_field_db s fid) s

/-- `TemplateService.move_field` (database-level part): loads the field,
checks only that the new coordinates are non-negative, applies the move,
scans for overlap, and updates — no type, minimum-size or template check. -/
def TemplateService.move_field_db (s : ServiceState) (fid : Int) (nx ny : ℚ) :
    Except SvcError (Bool × DBState) :=
  match s.db.get_field_by_id fid with
  | none => .error (.fieldNotFound fid)
  | some f0 =>
    if nx < 0 ∨ ny < 0 then .error .negativeCoords
    else
      let f := { f0 with Cord_x := nx, Cord_y := ny }
      match (s.db.get_fields_by_page f.ID_Template f.NroPagina).find?
          (fun g => !(g.ID == f.ID) && f.intersects g) with
      | some g => .error (.overlapsWith g.Nombre_Campo)
      | none => TemplateRepository.update_field s.db f

def TemplateService.move_field (s : ServiceState) (fid : Int) (nx ny : ℚ) :
    Except SvcError (Bool × ServiceState) :=
  runService (fun s => TemplateService.move_field_db s fid nx ny) s

/-- `TemplateService.resize_field` (database-level part): loads the field,
checks the minimum size against the loaded field's `_dpi` (which is 300 for
every row read back), applies the resize, scans for overlap, and updates —
no type or template check. -/
def TemplateService.resize_field_db (s : ServiceState) (fid : Int) (nw nh : ℚ) :
    Except SvcError (Bool × DBState) :=
  match s.db.get_field_by_id fid with
  | none => .error (.fieldNotFound fid)
  | some f0 =>
    if nw < 20 / (f0.fdpi : ℚ) ∨ nh < 20 / (f0.fdpi : ℚ) then .error .belowMinSize
    else
      let f := { f0 with Cord_width := nw, Cord_height := nh }
      match (s.db.get_fields_by_page f.ID_Template f.NroPagina).find?
          (fun g => !(g.ID == f.ID) && f.intersects g) with
      | some g => .error (.overlapsWith g.Nombre_Campo)
      | none => TemplateRepository.update_field s.db f

def TemplateService.resize_field (s : ServiceState) (fid : Int) (nw nh : ℚ) :
    Except SvcError (Bool × ServiceState) :=
  runService (fun s => TemplateService.resize_field_db s fid nw nh) s

/-- `TemplateService.rename_field` (database-level part): loads the field,
normalizes the new name (`strip().upper()`), checks it non-empty, at most
100 characters and unique within its template, applies the rename and
updates — no geometric or type check. -/
def TemplateService.rename_field_db (s : ServiceState) (fid : Int) (newName : String) :
    Except SvcError (Bool × DBState) :=
  match s.db.get_field_by_id fid with
  | none => .error (.fieldNotFound fid)
  | some f0 =>
    let nn := pyUpper (pyStrip newName)
    if nn = "" then .error .emptyName
    else if 100 < nn.length then .error .nameTooLong
    else if (s.db.get_template_fields f0.ID_Template).any
        (fun g => g.Nombre_Campo == nn && !(g.ID == fid)) then
      .error (.duplicateFieldName nn)
    else TemplateRepository.update_field s.db { f0 with Nombre_Campo := nn }

def TemplateService.rename_field (s : ServiceState) (fid : Int) (newName : String) :
    Except SvcError (Bool × ServiceState) :=
  runService (fun s => TemplateService.rename_field_db s fid newName) s

/-- `TemplateService.change_field_type` (database-level part): loads the
field, checks only that the new type is one of the recognized types, applies
the change and updates — no geometric, overlap or template check. -/
def TemplateService.change_field_type_db (s : ServiceState) (fid : Int) (newType : String) :
    Except SvcError (Bool × DBState) :=
  match s.db.get_field_by_id fid with
  | none => .error (.fieldNotFound fid)
  | some f0 =>
    if !validRegionType newType then .error .invalidFieldType
    else TemplateRepository.update_field s.db { f0 with Tipo_Campo := newType }

def TemplateService.change_field_type (s : ServiceState) (fid : Int) (newType : String) :
    Except SvcError (Bool × ServiceState) :=
  runService (fun s => TemplateService.change_field_type_db s fid newType) s

/-- `TemplateService.duplicate_template` (database-level part). -/
def TemplateService.duplicate_template_db (s : ServiceState) (tid : Int) (newName : String) :
    Except SvcError (Int × DBState) :=
  match s.db.get_template_by_id tid with
  | none => .error (.templateNotFound tid)
  | some t =>
    let nn := pyStrip newName
    if nn = "" then .error .emptyName
    else if !(s.imagesOnDisk.contains t.Imagen) then .error (.imageNotFound t.Imagen)
    else if (s.db.search_templates nn).any (fun r => r.Nombre == nn) then
      .error (.duplicateTemplateName nn)
    else TemplateRepository.duplicate_template s.db tid nn

def TemplateService.duplicate_template (s : ServiceState) (tid : Int) (newName : String) :
    Except SvcError (Int × ServiceState) :=
  runService (fun s => TemplateService.duplicate_template_db s tid newName) s

/-! ## Connection manager (`src/database/connection.py`)

`initialize()` is modelled as a function of the current connection handle and
a success oracle for the (at most three) `pyodbc.connect` attempts, producing
the outcome, the new handle and an event trace (connection closes, connect
attempts, sleeps). -/

/-- A `pyodbc` connection handle with its `closed` flag. -/
structure PyConn where
  closed : Bool
deriving DecidableEq, Repr

inductive ConnEvent where
  | closePrev : ConnEvent
  | connectAttempt : Nat → ConnEvent
  | sleepSecs : Nat → ConnEvent
deriving DecidableEq, Repr

/-- Outcome of `initialize()`: success, or a `DatabaseError` wrapping the
underlying cause of the attempt with the given index. -/
inductive InitResult where
  | ok : InitResult
  | err : Nat → InitResult
deriving DecidableEq, Repr

/-- The retry loop of `initialize()`: `max_retries = 3`, `retry_delay = 2`.
Each iteration closes any live connection first, then attempts to connect
(success decided by the oracle); a non-final failure sleeps 2 seconds and
retries, the final failure raises, wrapping its cause. -/
def connInitGo (ok : Nat → Bool) (conn : Option PyConn) :
    List Nat → InitResult × Option PyConn × List ConnEvent
  | [] => (.err 0, conn, [])
  | a :: rest =>
    let needClose : Bool := match conn with
      | some c => !c.closed
      | none => false
    let conn1 : Option PyConn := if needClose then none else conn
    let evs0 : List ConnEvent := if needClose then [.closePrev] else []
    if ok a then (.ok, some ⟨false⟩, evs0 ++ [.connectAttempt a])
    else if rest.isEmpty then (.err a, conn1, evs0 ++ [.connectAttempt a])
    else
      let t := connInitGo ok conn1 rest
      (t.1, t.2.1, evs0 ++ [.connectAttempt a, .sleepSecs 2] ++ t.2.2)

/-- `DatabaseConnection.initialize()` with its fixed three attempts. -/
def connInit (conn : Option PyConn) (ok : Nat → Bool) :
    InitResult × Option PyConn × List ConnEvent :=
  connInitGo ok conn [0, 1, 2]

def isAttempt : ConnEvent → Bool
  | .connectAttempt _ => true
  | _ => false

def isSleep : ConnEvent → Bool
  | .sleepSecs _ => true
  | _ => false

/-! ## Concrete instances used by witnesses and counterexamples -/

/-- Two concrete fields on the same page whose rectangles touch along a
vertical edge (`A.right = B.left`) with coinciding y-projections. -/
def edgeA : Field :=
  { ID := 1, ID_Template := 1, Nombre_Campo := "A", Tipo_Campo := "OMR",
    Cord_x := 0, Cord_y := 0, Cord_width := 1, Cord_height := 1,
    NroPagina := 0, IdRectangulo := 1 }

def edgeB : Field :=
  { ID := 2, ID_Template := 1, Nombre_Campo := "B", Tipo_Campo := "OMR",
    Cord_x := 1, Cord_y := 0, Cord_width := 1, Cord_height := 1,
    NroPagina := 0, IdRectangulo := 2 }

/-- A concrete valid field used to witness C10. -/
def c10field : Field :=
  { ID := 7, ID_Template := 3, Nombre_Campo := "Q1_A", Tipo_Campo := "ICR",
    Cord_x := 1, Cord_y := 2, Cord_width := 1, Cord_height := 1,
    NroPagina := 1, IdRectangulo := 4 }

/-- Template whose image resolution differs from the `Field._dpi` default. -/
def c4tmpl : Template :=
  { ID := 1, Nombre := "T", Xmp := "", Imagen := "t.tiff", ID_Grado := 1, dpi := 200 }

def c4state : ServiceState :=
  { db := { templates := [c4tmpl], fields := [], nextTemplateId := 2, nextFieldId := 1 } }

/-- 0.08 in × 0.08 in: 24 px at the field's default 300 DPI, but only 16 px at
the template image's 200 DPI. -/
def c4field : Field :=
  { ID := 0, ID_Template := 1, Nombre_Campo := "A", Tipo_Campo := "OMR",
    Cord_x := 0, Cord_y := 0, Cord_width := 2/25, Cord_height := 2/25,
    NroPagina := 0, IdRectangulo := 1 }

/-- Concrete state for C3: one template and one stored field whose width
(1/20 in = 15 px at 300 DPI) is below the 20-pixel minimum `update_field`
enforces, while `Field.validate` (which only requires positivity) accepts it. -/
def c3tmpl : Template :=
  { ID := 1, Nombre := "T", Xmp := "", Imagen := "t.tiff", ID_Grado := 1 }

def c3field : Field :=
  { ID := 1, ID_Template := 1, Nombre_Campo := "A", Tipo_Campo := "OMR",
    Cord_x := 0, Cord_y := 0, Cord_width := mkRat 1 20, Cord_height := 1,
    NroPagina := 0, IdRectangulo := 1 }

def c3state : ServiceState :=
  { db := { templates := [c3tmpl], fields := [c3field],
            nextTemplateId := 2, nextFieldId := 2 } }

/-- The same state without the template row (`Tbl_Fields` can hold such rows;
nothing in the repository layer forbids them). -/
def c3state2 : ServiceState :=
  { db := { templates := [], fields := [c3field],
            nextTemplateId := 2, nextFieldId := 2 } }

/-- Concrete instances for the C5 witness. -/
def c5tmpl : Template :=
  { ID := 1, Nombre := "T", Xmp := "", Imagen := "t.tiff", ID_Grado := 1 }

def c5e : Field :=
  { ID := 1, ID_Template := 1, Nombre_Campo := "A", Tipo_Campo := "OMR",
    Cord_x := 1, Cord_y := 1, Cord_width := 1, Cord_height := 1,
    NroPagina := 0, IdRectangulo := 1 }

def c5f : Field :=
  { ID := 0, ID_Template := 1, Nombre_Campo := "B", Tipo_Campo := "OMR",
    Cord_x := 0, Cord_y := 0, Cord_width := 3, Cord_height := 3,
    NroPagina := 0, IdRectangulo := 2 }

def c5state : ServiceState :=
  { db := { templates := [c5tmpl], fields := [c5e],
            nextTemplateId := 2, nextFieldId := 2 } }

/-- A cache holding one pre-write lookup result. -/
def c2cache : Cache (List Field) :=
  { entries := [⟨"get_template_fields:(1,)", [], 0⟩], timeout := 300 }

def c2tmpl : Template :=
  { ID := 1, Nombre := "T", Xmp := "", Imagen := "t.tiff", ID_Grado := 1 }

def c2field : Field :=
  { ID := 0, ID_Template := 1, Nombre_Campo := "A", Tipo_Campo := "OMR",
    Cord_x := 0, Cord_y := 0, Cord_width := 1, Cord_height := 1,
    NroPagina := 0, IdRectangulo := 1 }

def c2state : ServiceState :=
  { db := { templates := [c2tmpl], fields := [], nextTemplateId := 2, nextFieldId := 1 },
    imagesOnDisk := [], cacheAttr := some c2cache }

/-- The state after the successful `create_field` below. -/
def c2post : ServiceState :=
  { db := { templates := [c2tmpl], fields := [{ c2field with ID := 1 }],
            nextTemplateId := 2, nextFieldId := 2 },
    imagesOnDisk := [], cacheAttr := some c2cache }

/-- The attributes `duplicate_template` must preserve on each copied field:
name, type, geometry, page. -/
def geomKey (f : Field) : String × String × ℚ × ℚ × ℚ × ℚ × Int :=
  (f.Nombre_Campo, f.Tipo_Campo, f.Cord_x, f.Cord_y, f.Cord_width, f.Cord_height, f.NroPagina)

/-- Concrete instances for the C6 witness. -/
def c6tmpl : Template :=
  { ID := 1, Nombre := "T", Xmp := "x", Imagen := "t.tiff", ID_Grado := 5 }

def c6fld : Field :=
  { ID := 1, ID_Template := 1, Nombre_Campo := "A", Tipo_Campo := "OMR",
    Cord_x := 1, Cord_y := 1, Cord_width := 1, Cord_height := 1,
    NroPagina := 0, IdRectangulo := 1 }

def c6state : DBState :=
  { templates := [c6tmpl], fields := [c6fld], nextTemplateId := 2, nextFieldId := 2 }

/-- The committed state of the successful duplication below. -/
def c6post : DBState :=
  { templates := [c6tmpl, { c6tmpl with ID := 2, Nombre := "COPY" }],
    fields := [c6fld, { c6fld with ID := 2, ID_Template := 2 }],
    nextTemplateId := 3, nextFieldId := 3 }

/-- Concrete instances for the C7 witness: template 1 owns one field; a field
of template 2 must survive. -/
def c7state : DBState :=
  { templates := [{ ID := 1, Nombre := "T", Xmp := "", Imagen := "t.tiff", ID_Grado := 1 },
                  { ID := 2, Nombre := "U", Xmp := "", Imagen := "u.tiff", ID_Grado := 1 }],
    fields := [{ ID := 1, ID_Template := 1, Nombre_Campo := "A", Tipo_Campo := "OMR",
                 Cord_x := 0, Cord_y := 0, Cord_width := 1, Cord_height := 1,
                 NroPagina := 0, IdRectangulo := 1 },
               { ID := 2, ID_Template := 2, Nombre_Campo := "B", Tipo_Campo := "OMR",
                 Cord_x := 0, Cord_y := 0, Cord_width := 1, Cord_height := 1,
                 NroPagina := 0, IdRectangulo := 2 }],
    nextTemplateId := 3, nextFieldId := 3 }

/-- The committed state of the successful deletion below. -/
def c7post : DBState :=
  { templates := [{ ID := 2, Nombre := "U", Xmp := "", Imagen := "u.tiff", ID_Grado := 1 }],
    fields := [{ ID := 2, ID_Template := 2, Nombre_Campo := "B", Tipo_Campo := "OMR",
                 Cord_x := 0, Cord_y := 0, Cord_width := 1, Cord_height := 1,
                 NroPagina := 0, IdRectangulo := 2 }],
    nextTemplateId := 3, nextFieldId := 3 }

end XDesigner

namespace XDesigner

/-! ## Shared helper lemmas -/

/-- Characterization of `Field.validate` success as the conjunction of all
invariants it checks. -/
theorem validate_ok_iff (f : Field) :
    f.validate = .ok () ↔
      (f.Nombre_Campo ≠ "" ∧ pyIsUpper f.Nombre_Campo = true ∧
       validRegionType f.Tipo_Campo = true ∧
       0 ≤ f.Cord_x ∧ 0 ≤ f.Cord_y ∧ 0 < f.Cord_width ∧ 0 < f.Cord_height ∧
       0 ≤ f.NroPagina ∧ 0 < f.ID_Template) := by
  unfold Field.validate
  split_ifs with h1 h2 h3 h4 h5 h6 h7 <;>
    simp_all [not_or, not_lt, not_le]
  · intro hx hy hw hh _
    exfalso
    rcases h4 with h | h | h | h <;> linarith
  · intro hw hh _
    exfalso
    rcases h5 with h | h <;> linarith

/-- `find?` returns the unique element satisfying the predicate. -/
theorem find?_eq_some_of_unique {α} (p : α → Bool) :
    ∀ (l : List α) (e : α), e ∈ l → p e = true →
      (∀ g ∈ l, p g = true → g = e) → l.find? p = some e := by
  intro l
  induction l with
  | nil => intro e he; cases he
  | cons a t ih =>
    intro e he hpe hu
    by_cases hpa : p a = true
    · have hae : a = e := hu a (List.mem_cons_self a t) hpa
      rw [List.find?_cons_of_pos _ hpa, hae]
    · have he' : e ∈ t := by
        rcases List.mem_cons.mp he with h | h
        · exact absurd (h ▸ hpe) hpa
        · exact h
      rw [List.find?_cons_of_neg _ (by simpa using hpa)]
      exact ih e he' hpe (fun g hg hpg => hu g (List.mem_cons_of_mem _ hg) hpg)

/-- A rectangle containing another (positive-area) rectangle on the same page
intersects it. -/
theorem intersects_of_contains (f e : Field)
    (hpage : f.NroPagina = e.NroPagina)
    (hx1 : f.Cord_x ≤ e.Cord_x) (hx2 : e.Cord_x + e.Cord_width ≤ f.Cord_x + f.Cord_width)
    (hy1 : f.Cord_y ≤ e.Cord_y) (hy2 : e.Cord_y + e.Cord_height ≤ f.Cord_y + f.Cord_height)
    (hew : 0 < e.Cord_width) (heh : 0 < e.Cord_height) :
    f.intersects e = true := by
  simp only [Field.intersects, hpage, ne_eq, not_true_eq_false, if_false,
    Bool.not_eq_true', Bool.or_eq_false_iff, decide_eq_false_iff_not, not_lt]
  refine ⟨⟨⟨?_, ?_⟩, ?_⟩, ?_⟩ <;> linarith

/-- Membership in `get_fields_by_page` forces template, page and the default
read-back `_dpi`. -/
theorem mem_get_fields_by_page {s : DBState} {tid page : Int} {e : Field}
    (h : e ∈ s.get_fields_by_page tid page) :
    e.ID_Template = tid ∧ e.NroPagina = page ∧ e.fdpi = 300 := by
  unfold DBState.get_fields_by_page orderByName at h
  obtain ⟨e0, he0, rfl⟩ := List.mem_map.mp h
  have hmem := (List.mem_insertionSort _).mp he0
  have hcond := (List.mem_filter.mp hmem).2
  simp only [Bool.and_eq_true, beq_iff_eq] at hcond
  exact ⟨hcond.1, hcond.2, rfl⟩

/-- A field looked up by id has that id and the default read-back `_dpi`. -/
theorem get_field_by_id_spec {s : DBState} {fid : Int} {f : Field}
    (h : s.get_field_by_id fid = some f) : f.ID = fid ∧ f.fdpi = 300 := by
  unfold DBState.get_field_by_id at h
  obtain ⟨f0, hf0, rfl⟩ := Option.map_eq_some'.mp h
  have := List.find?_some hf0
  simp only [beq_iff_eq] at this
  exact ⟨this, rfl⟩


/-! ## C9: symmetry of `intersects` -/

/-- C9: `intersects` is symmetric: for all Field values `a` and `b`,
`intersects(a, b) == intersects(b, a)`. -/
theorem intersects_symm (a b : Field) : a.intersects b = b.intersects a := by
  unfold Field.intersects
  by_cases h : a.NroPagina = b.NroPagina
  · simp only [h, ne_eq, not_true_eq_false, if_false]
    rcases lt_or_le (a.Cord_x + a.Cord_width) b.Cord_x with h1 | h1 <;>
    rcases lt_or_le (b.Cord_x + b.Cord_width) a.Cord_x with h2 | h2 <;>
    rcases lt_or_le (a.Cord_y + a.Cord_height) b.Cord_y with h3 | h3 <;>
    rcases lt_or_le (b.Cord_y + b.Cord_height) a.Cord_y with h4 | h4 <;>
    simp [h1, h2, h3, h4, not_lt.mpr]
  · have h2 : b.NroPagina ≠ a.NroPagina := fun e => h e.symm
    simp [h, h2]

/-! ## C1: edge-touching rectangles -/

/-- C1 counterexample: `edgeA` and `edgeB` share a page, touch exactly at an
edge (`edgeA.Cord_x + edgeA.Cord_width = edgeB.Cord_x`) with overlapping
y-projections, yet `intersects` returns `true` — the separation test uses
strict `<`, so equality of the far and near edges is not treated as
separation, contradicting the claim that such pairs do not intersect. -/
theorem edge_touching_intersects_cex :
    edgeA.Cord_x + edgeA.Cord_width = edgeB.Cord_x ∧
    edgeA.NroPagina = edgeB.NroPagina ∧
    edgeA.intersects edgeB = true := by
  refine ⟨by norm_num [edgeA, edgeB], rfl, ?_⟩
  norm_num [Field.intersects, edgeA, edgeB]

/-- C1 (amended): rectangles on the same page that touch at an edge
(`a.right = b.left`, overlapping y-projections, non-negative widths) DO
satisfy `intersects`: the strict `<` separation test does not treat
zero-area contact as separation. -/
theorem intersects_of_edge_touching (a b : Field)
    (hpage : a.NroPagina = b.NroPagina)
    (hx : a.Cord_x + a.Cord_width = b.Cord_x)
    (haw : 0 ≤ a.Cord_width) (hbw : 0 ≤ b.Cord_width)
    (hy1 : a.Cord_y ≤ b.Cord_y + b.Cord_height)
    (hy2 : b.Cord_y ≤ a.Cord_y + a.Cord_height) :
    a.intersects b = true := by
  simp only [Field.intersects, hpage, ne_eq, not_true_eq_false, if_false,
    Bool.not_eq_true', Bool.or_eq_false_iff, decide_eq_false_iff_not, not_lt]
  refine ⟨⟨⟨?_, ?_⟩, ?_⟩, ?_⟩ <;> linarith

/-- Witness for C1's amended theorem at the concrete pair `edgeA`/`edgeB`. -/
theorem intersects_of_edge_touching_witness : edgeA.intersects edgeB = true :=
  intersects_of_edge_touching edgeA edgeB rfl (by norm_num [edgeA, edgeB])
    (by norm_num [edgeA]) (by norm_num [edgeB])
    (by norm_num [edgeA, edgeB]) (by norm_num [edgeA, edgeB])


/-! ## C10: representation invariant of `Field` -/

/-- C10: `Field.validate` (run by `__post_init__` at construction) succeeds
exactly when none of the listed defects is present — empty or non-uppercase
name, unrecognized type, negative coordinate, non-positive dimension,
negative page, non-positive template id — and both repository write paths
(`create_field`, `update_field`) re-run it, so any field they accept
satisfies every one of these invariants. -/
theorem field_validate_characterization :
    (∀ f : Field, f.validate = .ok () ↔
      (f.Nombre_Campo ≠ "" ∧ pyIsUpper f.Nombre_Campo = true ∧
       validRegionType f.Tipo_Campo = true ∧
       0 ≤ f.Cord_x ∧ 0 ≤ f.Cord_y ∧ 0 < f.Cord_width ∧ 0 < f.Cord_height ∧
       0 ≤ f.NroPagina ∧ 0 < f.ID_Template)) ∧
    (∀ (s : DBState) (f : Field) (r : Int × DBState),
      TemplateRepository.create_field s f = .ok r → f.validate = .ok ()) ∧
    (∀ (s : DBState) (f : Field) (r : Bool × DBState),
      TemplateRepository.update_field s f = .ok r → f.validate = .ok ()) := by
  refine ⟨validate_ok_iff, ?_, ?_⟩
  · intro s f r h
    unfold TemplateRepository.create_field at h
    rcases hv : f.validate with e | u
    · rw [hv] at h; cases h
    · rfl
  · intro s f r h
    unfold TemplateRepository.update_field at h
    rcases hv : f.validate with e | u
    · rw [hv] at h; cases h
    · rfl

/-- Witness for C10 at the concrete field `c10field`: it satisfies all the
invariants, and the repository insert of it into the empty database succeeds,
implying (via the theorem) that it passed `Field.validate`. -/
theorem field_validate_characterization_witness :
    c10field.validate = .ok () ∧
    pyIsUpper c10field.Nombre_Campo = true ∧ 0 < c10field.ID_Template := by
  have h := field_validate_characterization
  have hok : TemplateRepository.create_field {} c10field =
      .ok (1, { templates := [], fields := [{ c10field with ID := 1 }],
                nextTemplateId := 1, nextFieldId := 2 }) := by
    rfl
  have hv := h.2.1 {} c10field _ hok
  exact ⟨hv, ((h.1 c10field).mp hv).2.1, ((h.1 c10field).mp hv).2.2.2.2.2.2.2.2⟩


/-- `runService` propagates database-level errors unchanged. -/
theorem runService_error_iff (g : ServiceState → Except SvcError (α × DBState))
    (s : ServiceState) (e : SvcError) :
    runService g s = .error e ↔ g s = .error e := by
  unfold runService
  cases h : g s with
  | ok p => simp
  | error e2 => simp

/-- `runService` succeeds exactly when the database-level operation does. -/
theorem runService_isOk (g : ServiceState → Except SvcError (α × DBState))
    (s : ServiceState) : (runService g s).isOk = (g s).isOk := by
  unfold runService
  cases h : g s with
  | ok p => rfl
  | error e2 => rfl

/-- A successful `runService` only replaces the database component. -/
theorem runService_ok_iff (g : ServiceState → Except SvcError (α × DBState))
    (s : ServiceState) (a : α) (s' : ServiceState) :
    runService g s = .ok (a, s') ↔ ∃ d, g s = .ok (a, d) ∧ s' = { s with db := d } := by
  unfold runService
  cases h : g s with
  | ok p =>
    simp only [Except.ok.injEq, Prod.mk.injEq]
    constructor
    · rintro ⟨h1, h2⟩; exact ⟨p.2, by rw [← h1], h2.symm⟩
    · rintro ⟨d, hd, h2⟩
      cases hd
      exact ⟨rfl, h2.symm⟩
  | error e2 => simp

/-! ## C4: the minimum-size threshold -/

/-- C4 counterexample: `create_field` accepts `c4field` although its width is
below `20 / dpi` of its template's image (20/200 = 0.1 in): the code divides
by `field._dpi` (300 unless the caller ran `from_pixels`), not by the
template image's DPI, so the claimed threshold is wrong and "raises exactly
when below that threshold" fails at this input. -/
theorem create_field_min_size_template_dpi_cex :
    c4field.Cord_width < 20 / (c4tmpl.dpi : ℚ) ∧
    c4state.db.get_template_by_id c4field.ID_Template = some c4tmpl ∧
    (TemplateService.create_field c4state c4field).isOk = true := by
  refine ⟨by norm_num [c4field, c4tmpl], rfl, ?_⟩
  norm_num [TemplateService.create_field, runService, TemplateService.create_field_db,
    c4state, c4field, c4tmpl, DBState.get_template_by_id, DBState.get_fields_by_page,
    orderByName, validRegionType, TemplateRepository.create_field, Field.validate,
    pyIsUpper]
  decide

/-- C4 (amended): with the template present and the type valid,
`create_field` raises the minimum-size error exactly when Width or Height is
below `20 / field._dpi` — the DPI recorded on the `Field` object itself
(default 300), not the template image's DPI. -/
theorem create_field_min_size_threshold (s : ServiceState) (f : Field) (t : Template)
    (ht : s.db.get_template_by_id f.ID_Template = some t)
    (hty : validRegionType f.Tipo_Campo = true) :
    TemplateService.create_field s f = .error .belowMinSize ↔
      (f.Cord_width < 20 / (f.fdpi : ℚ) ∨ f.Cord_height < 20 / (f.fdpi : ℚ)) := by
  unfold TemplateService.create_field
  rw [runService_error_iff]
  show TemplateService.create_field_db s f = _ ↔ _
  unfold TemplateService.create_field_db
  rw [ht]
  simp only [hty, Bool.not_true, Bool.false_eq_true, if_false]
  by_cases hc : f.Cord_width < 20 / (f.fdpi : ℚ) ∨ f.Cord_height < 20 / (f.fdpi : ℚ)
  · simp [hc]
  · simp only [hc, if_false, iff_false]
    cases hf : (s.db.get_fields_by_page f.ID_Template f.NroPagina).find?
        (fun g => f.intersects g) with
    | some g => simp
    | none =>
      unfold TemplateRepository.create_field
      cases hv : f.validate with
      | error e => simp
      | ok u => simp

/-- Witness for C4's amended theorem: a 1/30 in field at the default 300 DPI
is rejected as below the 20-pixel floor. -/
theorem create_field_min_size_threshold_witness :
    TemplateService.create_field c4state
      { c4field with Cord_width := 1/30, Cord_height := 1/30 } = .error .belowMinSize := by
  refine (create_field_min_size_threshold c4state
    { c4field with Cord_width := 1/30, Cord_height := 1/30 } c4tmpl rfl (by decide)).mpr ?_
  left
  norm_num [c4field]


/-! ## C3: the single-mutation field operations -/

/-- If the field row exists but its width is below the minimum size,
`update_field` fails (with the template-missing, type or minimum-size error,
depending on the state). -/
theorem update_field_fails_of_small (s : ServiceState) (f : Field)
    (hsome : (s.db.get_field_by_id f.ID).isSome = true)
    (hw : f.Cord_width < 20 / (f.fdpi : ℚ)) :
    (TemplateService.update_field s f).isOk = false := by
  unfold TemplateService.update_field
  rw [runService_isOk]
  show (TemplateService.update_field_db s f).isOk = false
  unfold TemplateService.update_field_db
  obtain ⟨f0, hf0⟩ := Option.isSome_iff_exists.mp hsome
  rw [hf0]
  cases htl : s.db.get_template_by_id f.ID_Template with
  | none => rfl
  | some t =>
    cases hty : validRegionType f.Tipo_Campo with
    | false =>
      simp only [hty, Bool.not_false, if_true]
      rfl
    | true =>
      simp only [hty, Bool.not_true, Bool.false_eq_true, if_false]
      rw [if_pos (Or.inl hw)]
      rfl

/-- If the field row exists but the template row does not, `update_field`
fails with the template-missing error. -/
theorem update_field_fails_of_no_template (s : ServiceState) (f : Field)
    (hsome : (s.db.get_field_by_id f.ID).isSome = true)
    (htl : s.db.get_template_by_id f.ID_Template = none) :
    (TemplateService.update_field s f).isOk = false := by
  unfold TemplateService.update_field
  rw [runService_isOk]
  show (TemplateService.update_field_db s f).isOk = false
  unfold TemplateService.update_field_db
  obtain ⟨f0, hf0⟩ := Option.isSome_iff_exists.mp hsome
  rw [hf0, htl]
  rfl

/-- C3 counterexample: `change_field_type` succeeds on a stored field whose
geometry the full `update_field` validation path rejects (below the
20-pixel minimum size), so it does not re-run the full `update_field`
validation/conflict path before writing. -/
theorem change_field_type_skips_validation_cex :
    (TemplateService.change_field_type c3state 1 "ICR").isOk = true ∧
    TemplateService.update_field c3state { c3field with Tipo_Campo := "ICR" } =
      .error .belowMinSize := by
  constructor
  · rfl
  · norm_num [TemplateService.update_field, runService, TemplateService.update_field_db,
      c3state, c3field, c3tmpl, DBState.get_field_by_id, DBState.get_template_by_id,
      readRow, validRegionType]

/-- C3 (amended): each of the four single-mutation operations loads the
current Field, applies its single mutation, and runs only a partial
validation before the repository write: `change_field_type` checks only the
type; `rename_field` only the normalized name (emptiness, length,
uniqueness); `move_field` only coordinate non-negativity and overlap;
`resize_field` only the minimum size and overlap.  None re-runs the full
`update_field` path: each can succeed in states where `update_field` on the
mutated field fails (minimum size for change/rename/move; template existence
for resize). -/
theorem single_mutation_partial_validation :
    (∀ (s : ServiceState) (fid : Int) (ty : String) (f0 : Field),
      s.db.get_field_by_id fid = some f0 →
      validRegionType ty = true →
      Field.validate { f0 with Tipo_Campo := ty } = .ok () →
      f0.Cord_width < 20 / (300 : ℚ) →
      (TemplateService.change_field_type s fid ty).isOk = true ∧
      (TemplateService.update_field s { f0 with Tipo_Campo := ty }).isOk = false) ∧
    (∀ (s : ServiceState) (fid : Int) (nm : String) (f0 : Field),
      s.db.get_field_by_id fid = some f0 →
      pyUpper (pyStrip nm) ≠ "" →
      (pyUpper (pyStrip nm)).length ≤ 100 →
      ((s.db.get_template_fields f0.ID_Template).any
        (fun g => g.Nombre_Campo == pyUpper (pyStrip nm) && !(g.ID == fid))) = false →
      Field.validate { f0 with Nombre_Campo := pyUpper (pyStrip nm) } = .ok () →
      f0.Cord_width < 20 / (300 : ℚ) →
      (TemplateService.rename_field s fid nm).isOk = true ∧
      (TemplateService.update_field s
        { f0 with Nombre_Campo := pyUpper (pyStrip nm) }).isOk = false) ∧
    (∀ (s : ServiceState) (fid : Int) (nx ny : ℚ) (f0 : Field),
      s.db.get_field_by_id fid = some f0 →
      0 ≤ nx → 0 ≤ ny →
      ((s.db.get_fields_by_page f0.ID_Template f0.NroPagina).find?
        (fun g => !(g.ID == f0.ID) &&
          ({ f0 with Cord_x := nx, Cord_y := ny } : Field).intersects g)) = none →
      Field.validate { f0 with Cord_x := nx, Cord_y := ny } = .ok () →
      f0.Cord_width < 20 / (300 : ℚ) →
      (TemplateService.move_field s fid nx ny).isOk = true ∧
      (TemplateService.update_field s
        { f0 with Cord_x := nx, Cord_y := ny }).isOk = false) ∧
    (∀ (s : ServiceState) (fid : Int) (nw nh : ℚ) (f0 : Field),
      s.db.get_field_by_id fid = some f0 →
      s.db.get_template_by_id f0.ID_Template = none →
      20 / (300 : ℚ) ≤ nw → 20 / (300 : ℚ) ≤ nh →
      ((s.db.get_fields_by_page f0.ID_Template f0.NroPagina).find?
        (fun g => !(g.ID == f0.ID) &&
          ({ f0 with Cord_width := nw, Cord_height := nh } : Field).intersects g)) = none →
      Field.validate { f0 with Cord_width := nw, Cord_height := nh } = .ok () →
      (TemplateService.resize_field s fid nw nh).isOk = true ∧
      (TemplateService.update_field s
        { f0 with Cord_width := nw, Cord_height := nh }).isOk = false) := by
  have hdpi300 : ∀ {s : ServiceState} {fid : Int} {f0 : Field},
      s.db.get_field_by_id fid = some f0 → (f0.fdpi : ℚ) = 300 := by
    intro s fid f0 h
    have := (get_field_by_id_spec h).2
    rw [this]; norm_num
  refine ⟨?_, ?_, ?_, ?_⟩
  · intro s fid ty f0 hf0 hty hval hw
    have hid := (get_field_by_id_spec hf0).1
    constructor
    · unfold TemplateService.change_field_type
      rw [runService_isOk]
      show (TemplateService.change_field_type_db s fid ty).isOk = true
      unfold TemplateService.change_field_type_db
      rw [hf0]
      simp only [hty, Bool.not_true, Bool.false_eq_true, if_false]
      unfold TemplateRepository.update_field
      rw [hval]
      rfl
    · refine update_field_fails_of_small s _ ?_ ?_
      · show (s.db.get_field_by_id f0.ID).isSome = true
        rw [hid, hf0]; rfl
      · show f0.Cord_width < 20 / ((f0.fdpi : ℚ))
        rw [hdpi300 hf0]; exact hw
  · intro s fid nm f0 hf0 hne hlen huniq hval hw
    have hid := (get_field_by_id_spec hf0).1
    constructor
    · unfold TemplateService.rename_field
      rw [runService_isOk]
      show (TemplateService.rename_field_db s fid nm).isOk = true
      unfold TemplateService.rename_field_db
      rw [hf0]
      simp only [hne, if_false, not_lt.mpr hlen, if_neg (not_lt.mpr hlen), huniq,
        Bool.false_eq_true]
      unfold TemplateRepository.update_field
      rw [hval]
      rfl
    · refine update_field_fails_of_small s _ ?_ ?_
      · show (s.db.get_field_by_id f0.ID).isSome = true
        rw [hid, hf0]; rfl
      · show f0.Cord_width < 20 / ((f0.fdpi : ℚ))
        rw [hdpi300 hf0]; exact hw
  · intro s fid nx ny f0 hf0 hnx hny hfind hval hw
    have hid := (get_field_by_id_spec hf0).1
    constructor
    · unfold TemplateService.move_field
      rw [runService_isOk]
      show (TemplateService.move_field_db s fid nx ny).isOk = true
      unfold TemplateService.move_field_db
      rw [hf0]
      dsimp only
      rw [if_neg (by push_neg; exact ⟨hnx, hny⟩)]
      rw [hfind]
      unfold TemplateRepository.update_field
      rw [hval]
      rfl
    · refine update_field_fails_of_small s _ ?_ ?_
      · show (s.db.get_field_by_id f0.ID).isSome = true
        rw [hid, hf0]; rfl
      · show f0.Cord_width < 20 / ((f0.fdpi : ℚ))
        rw [hdpi300 hf0]; exact hw
  · intro s fid nw nh f0 hf0 htl hnw hnh hfind hval
    have hid := (get_field_by_id_spec hf0).1
    constructor
    · unfold TemplateService.resize_field
      rw [runService_isOk]
      show (TemplateService.resize_field_db s fid nw nh).isOk = true
      unfold TemplateService.resize_field_db
      rw [hf0]
      dsimp only
      rw [if_neg (by
        rw [hdpi300 hf0]
        push_neg
        exact ⟨hnw, hnh⟩)]
      rw [hfind]
      unfold TemplateRepository.update_field
      rw [hval]
      rfl
    · exact update_field_fails_of_no_template s _ (by rw [hid, hf0]; rfl) htl

/-- Witness for C3's amended theorem on the concrete states `c3state`
and `c3state2`. -/
theorem single_mutation_partial_validation_witness :
    (TemplateService.change_field_type c3state 1 "ICR").isOk = true ∧
    (TemplateService.rename_field c3state 1 "b2").isOk = true ∧
    (TemplateService.move_field c3state 1 2 3).isOk = true ∧
    (TemplateService.resize_field c3state2 1 1 1).isOk = true ∧
    (TemplateService.update_field c3state
      { readRow c3field with Tipo_Campo := "ICR" }).isOk = false := by
  have h := single_mutation_partial_validation
  have h1 := h.1 c3state 1 "ICR" (readRow c3field) rfl (by decide) (by rfl)
    (by norm_num [readRow, c3field])
  have h2 := h.2.1 c3state 1 "b2" (readRow c3field) rfl (by decide) (by decide)
    (by rfl) (by rfl) (by norm_num [readRow, c3field])
  have h3 := h.2.2.1 c3state 1 2 3 (readRow c3field) rfl (by norm_num) (by norm_num)
    (by rfl) (by rfl) (by norm_num [readRow, c3field])
  have h4 := h.2.2.2 c3state2 1 1 1 (readRow c3field) rfl rfl
    (by norm_num) (by norm_num) (by rfl) (by rfl)
  exact ⟨h1.1, h2.1, h3.1, h4.1, h1.2⟩


/-! ## C5: overlap conflicts on create -/

/-- C5: for an otherwise-valid field `f` (template present, `Field.validate`
passes, minimum size met), if the fields on its template+page contain exactly
one field `e` that `f` intersects and `f`'s rectangle fully contains `e`'s
(positive-area) rectangle, then `create_field` fails naming `e`; the same
field moved to a page where it overlaps nothing is created and gets the next
field identity. -/
theorem create_field_overlap_conflict (s : ServiceState) (f e : Field) (p2 : Int)
    (t : Template)
    (ht : s.db.get_template_by_id f.ID_Template = some t)
    (hval : f.validate = .ok ())
    (hw : 20 / (f.fdpi : ℚ) ≤ f.Cord_width) (hh : 20 / (f.fdpi : ℚ) ≤ f.Cord_height)
    (he : e ∈ s.db.get_fields_by_page f.ID_Template f.NroPagina)
    (hex1 : f.Cord_x ≤ e.Cord_x) (hex2 : e.Cord_x + e.Cord_width ≤ f.Cord_x + f.Cord_width)
    (hey1 : f.Cord_y ≤ e.Cord_y) (hey2 : e.Cord_y + e.Cord_height ≤ f.Cord_y + f.Cord_height)
    (hew : 0 < e.Cord_width) (heh : 0 < e.Cord_height)
    (huniq : ∀ g ∈ s.db.get_fields_by_page f.ID_Template f.NroPagina,
        f.intersects g = true → g = e)
    (hp2 : ∀ g ∈ s.db.get_fields_by_page f.ID_Template p2,
        ({ f with NroPagina := p2 } : Field).intersects g = false)
    (hval2 : ({ f with NroPagina := p2 } : Field).validate = .ok ()) :
    TemplateService.create_field s f = .error (.overlapsWith e.Nombre_Campo) ∧
    ∃ s', TemplateService.create_field s { f with NroPagina := p2 } =
        .ok (s.db.nextFieldId, s') := by
  have hvt : validRegionType f.Tipo_Campo = true := ((validate_ok_iff f).mp hval).2.2.1
  have hpage : f.NroPagina = e.NroPagina := ((mem_get_fields_by_page he).2.1).symm
  have hint : f.intersects e = true :=
    intersects_of_contains f e hpage hex1 hex2 hey1 hey2 hew heh
  have hfind : (s.db.get_fields_by_page f.ID_Template f.NroPagina).find?
      (fun g => f.intersects g) = some e :=
    find?_eq_some_of_unique _ _ e he hint huniq
  constructor
  · unfold TemplateService.create_field
    rw [runService_error_iff]
    show TemplateService.create_field_db s f = _
    unfold TemplateService.create_field_db
    rw [ht]
    dsimp only
    rw [if_neg (by simp [hvt])]
    rw [if_neg (by push_neg; exact ⟨hw, hh⟩)]
    rw [hfind]
  · have hfind2 : (s.db.get_fields_by_page f.ID_Template p2).find?
        (fun g => ({ f with NroPagina := p2 } : Field).intersects g) = none :=
      List.find?_eq_none.mpr (fun x hx => by simp [hp2 x hx])
    have hdb : TemplateService.create_field_db s { f with NroPagina := p2 } =
        .ok (s.db.nextFieldId,
          { s.db with
            fields := s.db.fields ++ [{ f with NroPagina := p2, ID := s.db.nextFieldId }],
            nextFieldId := s.db.nextFieldId + 1 }) := by
      unfold TemplateService.create_field_db
      show (match s.db.get_template_by_id f.ID_Template with
        | none => _ | some _ => _) = _
      rw [ht]
      dsimp only
      rw [if_neg (by simp [hvt])]
      rw [if_neg (by push_neg; exact ⟨hw, hh⟩)]
      rw [hfind2]
      unfold TemplateRepository.create_field
      rw [hval2]
    refine ⟨{ s with db := { s.db with
        fields := s.db.fields ++ [{ f with NroPagina := p2, ID := s.db.nextFieldId }],
        nextFieldId := s.db.nextFieldId + 1 } }, ?_⟩
    unfold TemplateService.create_field runService
    dsimp only
    rw [hdb]

/-- Witness for C5: `c5f` fully covers `c5e` on page 0 and is rejected naming
"A"; the same field on page 1 is created with the next identity 2. -/
theorem create_field_overlap_conflict_witness :
    TemplateService.create_field c5state c5f = .error (.overlapsWith "A") ∧
    ∃ s', TemplateService.create_field c5state { c5f with NroPagina := 1 } =
        .ok (2, s') := by
  have hlist : c5state.db.get_fields_by_page c5f.ID_Template c5f.NroPagina = [c5e] := rfl
  have hlist2 : c5state.db.get_fields_by_page c5f.ID_Template 1 = [] := rfl
  have h := create_field_overlap_conflict c5state c5f c5e 1 c5tmpl rfl rfl
    (by norm_num [c5f]) (by norm_num [c5f])
    (by rw [hlist]; exact List.mem_singleton.mpr rfl)
    (by norm_num [c5f, c5e]) (by norm_num [c5f, c5e])
    (by norm_num [c5f, c5e]) (by norm_num [c5f, c5e])
    (by norm_num [c5e]) (by norm_num [c5e])
    (by rw [hlist]; intro g hg _; exact List.mem_singleton.mp hg)
    (by rw [hlist2]; intro g hg; cases hg)
    rfl
  exact ⟨h.1, h.2⟩


/-! ## C2: cache behaviour of the write paths -/

/-- C2 counterexample: a successful `create_field` leaves the (non-empty)
cache exactly as it was — `service.py` never applies `cache_decorator` or
`cache_invalidator`, so no write path clears any cache and an entry cached
before the write is still present (and servable) after it. -/
theorem cache_not_cleared_on_write_cex :
    (TemplateService.create_field c2state c2field).map (fun r => (r.1, r.2.cacheAttr))
      = .ok (1, some c2cache) ∧
    c2cache.entries ≠ [] := by
  constructor
  · have heq : TemplateService.create_field c2state c2field = .ok (1, c2post) := by
      norm_num [TemplateService.create_field, runService, TemplateService.create_field_db,
        c2state, c2field, c2tmpl, c2post, DBState.get_template_by_id,
        DBState.get_fields_by_page, orderByName, validRegionType,
        TemplateRepository.create_field, Field.validate, pyIsUpper]
      rfl
    rw [heq]
    rfl
  · decide

/-- C2 (amended): no Service write operation interacts with any cache —
each leaves the cache attribute exactly as found.  The clearing behaviour
the spec describes lives only in the unused `cache_invalidator` decorator,
which does clear the entire cache (after which a lookup misses). -/
theorem service_writes_do_not_touch_cache :
    (∀ (s : ServiceState) (f : Field) (r : Int) (s' : ServiceState),
      TemplateService.create_field s f = .ok (r, s') → s'.cacheAttr = s.cacheAttr) ∧
    (∀ (s : ServiceState) (f : Field) (r : Bool) (s' : ServiceState),
      TemplateService.update_field s f = .ok (r, s') → s'.cacheAttr = s.cacheAttr) ∧
    (∀ (s : ServiceState) (fid : Int) (r : Bool) (s' : ServiceState),
      TemplateService.delete_field s fid = .ok (r, s') → s'.cacheAttr = s.cacheAttr) ∧
    (∀ (s : ServiceState) (fid : Int) (nx ny : ℚ) (r : Bool) (s' : ServiceState),
      TemplateService.move_field s fid nx ny = .ok (r, s') → s'.cacheAttr = s.cacheAttr) ∧
    (∀ (s : ServiceState) (fid : Int) (nw nh : ℚ) (r : Bool) (s' : ServiceState),
      TemplateService.resize_field s fid nw nh = .ok (r, s') → s'.cacheAttr = s.cacheAttr) ∧
    (∀ (s : ServiceState) (fid : Int) (nm : String) (r : Bool) (s' : ServiceState),
      TemplateService.rename_field s fid nm = .ok (r, s') → s'.cacheAttr = s.cacheAttr) ∧
    (∀ (s : ServiceState) (fid : Int) (ty : String) (r : Bool) (s' : ServiceState),
      TemplateService.change_field_type s fid ty = .ok (r, s') → s'.cacheAttr = s.cacheAttr) ∧
    (∀ (s : ServiceState) (t : Template) (r : Int) (s' : ServiceState),
      TemplateService.create_template s t = .ok (r, s') → s'.cacheAttr = s.cacheAttr) ∧
    (∀ (s : ServiceState) (t : Template) (r : Bool) (s' : ServiceState),
      TemplateService.update_template s t = .ok (r, s') → s'.cacheAttr = s.cacheAttr) ∧
    (∀ (s : ServiceState) (tid : Int) (r : Bool) (s' : ServiceState),
      TemplateService.delete_template s tid = .ok (r, s') → s'.cacheAttr = s.cacheAttr) ∧
    (∀ (s : ServiceState) (tid : Int) (nm : String) (r : Int) (s' : ServiceState),
      TemplateService.duplicate_template s tid nm = .ok (r, s') → s'.cacheAttr = s.cacheAttr) ∧
    (∀ (σ β : Type) (f : σ → β × σ) (o : CachedObj σ (List Field)),
      ((cache_invalidator f o).2).cacheAttr = o.cacheAttr.map Cache.clear) ∧
    (∀ (c : Cache (List Field)) (now : Nat) (k : String),
      (Cache.clear c).entries = [] ∧ (Cache.get (Cache.clear c) now k).1 = none) := by
  have hrun : ∀ {α : Type} (g : ServiceState → Except SvcError (α × DBState))
      (s : ServiceState) (a : α) (s' : ServiceState),
      runService g s = .ok (a, s') → s'.cacheAttr = s.cacheAttr := by
    intro α g s a s' h
    obtain ⟨d, _, rfl⟩ := (runService_ok_iff g s a s').mp h
    rfl
  refine ⟨?_, ?_, ?_, ?_, ?_, ?_, ?_, ?_, ?_, ?_, ?_, ?_, ?_⟩
  · intro s f r s' h; exact hrun _ s r s' h
  · intro s f r s' h; exact hrun _ s r s' h
  · intro s fid r s' h; exact hrun _ s r s' h
  · intro s fid nx ny r s' h; exact hrun _ s r s' h
  · intro s fid nw nh r s' h; exact hrun _ s r s' h
  · intro s fid nm r s' h; exact hrun _ s r s' h
  · intro s fid ty r s' h; exact hrun _ s r s' h
  · intro s t r s' h; exact hrun _ s r s' h
  · intro s t r s' h; exact hrun _ s r s' h
  · intro s tid r s' h; exact hrun _ s r s' h
  · intro s tid nm r s' h; exact hrun _ s r s' h
  · intro σ β f o; rfl
  · intro c now k; exact ⟨rfl, rfl⟩

/-- Witness for C2's amended theorem: the concrete successful write above
preserves the cache, and clearing the same cache empties it. -/
theorem service_writes_do_not_touch_cache_witness :
    c2post.cacheAttr = c2state.cacheAttr ∧ (Cache.clear c2cache).entries = [] := by
  have h := service_writes_do_not_touch_cache
  have heq : TemplateService.create_field c2state c2field = .ok (1, c2post) := by
    norm_num [TemplateService.create_field, runService, TemplateService.create_field_db,
      c2state, c2field, c2tmpl, c2post, DBState.get_template_by_id,
      DBState.get_fields_by_page, orderByName, validRegionType,
      TemplateRepository.create_field, Field.validate, pyIsUpper]
    rfl
  exact ⟨h.1 c2state c2field 1 c2post heq,
    (h.2.2.2.2.2.2.2.2.2.2.2.2 c2cache 0 "k").1⟩


/-! ## C6: atomicity of `duplicate_template` -/

/-- Re-identifying a copied field does not change its `geomKey`. -/
theorem enumFrom_copy_geom (newTid base : Int) :
    ∀ (l : List Field) (n : Nat),
      ((l.enumFrom n).map (fun p =>
        ({ p.2 with ID := base + (p.1 : Int), ID_Template := newTid } : Field))).map geomKey
        = l.map geomKey := by
  intro l
  induction l with
  | nil => intro n; rfl
  | cons a t ih =>
    intro n
    simp only [List.enumFrom_cons, List.map_cons, List.map_map, Function.comp]
    have := ih (n + 1)
    simp only [List.map_map, Function.comp] at this
    rw [this]
    rfl

/-- Every copied field carries the new template id. -/
theorem enumFrom_copy_tid (newTid base : Int) (l : List Field) (n : Nat) :
    ∀ g ∈ (l.enumFrom n).map (fun p =>
        ({ p.2 with ID := base + (p.1 : Int), ID_Template := newTid } : Field)),
      g.ID_Template = newTid := by
  intro g hg
  obtain ⟨p, _, rfl⟩ := List.mem_map.mp hg
  rfl

/-- C6: `duplicate_template` is atomic.  Under the transaction wrapper, any
failure (injected driver fault or missing source) leaves the observable state
exactly as before; success returns the new template's identity and a state
holding the source's copy (new name, identical Xmp/Imagen/ID_Grado, and the
image-derived dpi travelling with Imagen) plus one copy of every field of the
source template preserving name, type, geometry and page number under the new
template id.  A partial copy is never observable. -/
theorem duplicate_template_atomic (s : DBState) (tid : Int) (nn : String) (f1 f2 : Bool) :
    ((∃ e, (TemplateRepository.duplicate_template_fx s tid nn f1 f2).1 = .error e) →
      (TemplateRepository.duplicate_template_fx s tid nn f1 f2).2 = s) ∧
    (∀ (i : Int) (s' : DBState),
      (TemplateRepository.duplicate_template_fx s tid nn f1 f2).1 = .ok (i, s') →
      (TemplateRepository.duplicate_template_fx s tid nn f1 f2).2 = s' ∧
      i = s.nextTemplateId ∧
      (∃ t, s.get_template_by_id tid = some t ∧
        s'.templates = s.templates ++
          [{ ID := s.nextTemplateId, Nombre := nn, Xmp := t.Xmp, Imagen := t.Imagen,
             ID_Grado := t.ID_Grado, dpi := t.dpi }]) ∧
      s'.nextTemplateId = s.nextTemplateId + 1 ∧
      s'.fields.length = s.fields.length +
        (s.fields.filter (fun g => g.ID_Template == tid)).length ∧
      (∀ g ∈ s.fields, g ∈ s'.fields) ∧
      (s'.fields.drop s.fields.length).map geomKey =
        (s.fields.filter (fun g => g.ID_Template == tid)).map geomKey ∧
      (∀ g ∈ s'.fields.drop s.fields.length, g.ID_Template = s.nextTemplateId)) := by
  unfold TemplateRepository.duplicate_template_fx duplicateTemplateBody
  cases f1 with
  | true =>
    refine ⟨fun _ => rfl, ?_⟩
    intro i s' h
    simp at h
  | false =>
    cases hlook : s.get_template_by_id tid with
    | none =>
      refine ⟨fun _ => rfl, ?_⟩
      intro i s' h
      simp at h
    | some t =>
      cases f2 with
      | true =>
        refine ⟨fun _ => rfl, ?_⟩
        intro i s' h
        simp at h
      | false =>
        simp only [if_false, Bool.false_eq_true]
        constructor
        · rintro ⟨e, he⟩
          simp at he
        · intro i s' h
          simp only [Except.ok.injEq, Prod.mk.injEq] at h
          obtain ⟨hi, hs⟩ := h
          subst hi
          subst hs
          refine ⟨rfl, rfl, ⟨t, rfl, rfl⟩, rfl, ?_, ?_, ?_, ?_⟩
          · simp [List.enum]
          · intro g hg
            exact List.mem_append_left _ hg
          · rw [List.drop_left' (by simp)]
            exact enumFrom_copy_geom _ _ _ 0
          · rw [List.drop_left' (by simp)]
            exact enumFrom_copy_tid _ _ _ 0

/-- Witness for C6: a faulted duplication leaves `c6state` unchanged, and the
fault-free duplication returns the next template identity and keeps every
pre-existing field. -/
theorem duplicate_template_atomic_witness :
    (TemplateRepository.duplicate_template_fx c6state 1 "COPY" true false).2 = c6state ∧
    (2 : Int) = c6state.nextTemplateId ∧
    (∀ g ∈ c6state.fields, g ∈ c6post.fields) := by
  have hfault := (duplicate_template_atomic c6state 1 "COPY" true false).1 ⟨.fault, rfl⟩
  have hok := (duplicate_template_atomic c6state 1 "COPY" false false).2 2 c6post rfl
  exact ⟨hfault, hok.2.1, hok.2.2.2.2.2.1⟩

/-! ## C7: `delete_template` -/

/-- C7: under the transaction wrapper, `delete_template` either fails leaving
the state unchanged, or succeeds having removed the child fields and the
template row together, returning `true` iff a template row with that id
existed; after success the template's field list is empty while unrelated
rows survive.  On a fault-free driver the wrapper returns exactly the plain
`delete_template` result. -/
theorem delete_template_txn_spec (s : DBState) (tid : Int) (f1 f2 : Bool) :
    ((∃ e, (TemplateRepository.delete_template_fx s tid f1 f2).1 = .error e) →
      (TemplateRepository.delete_template_fx s tid f1 f2).2 = s) ∧
    (∀ (b : Bool) (s' : DBState),
      (TemplateRepository.delete_template_fx s tid f1 f2).1 = .ok (b, s') →
      (TemplateRepository.delete_template_fx s tid f1 f2).2 = s' ∧
      (b = true ↔ ∃ t ∈ s.templates, t.ID = tid) ∧
      s'.get_template_fields tid = [] ∧
      (∀ g ∈ s'.fields, g.ID_Template ≠ tid) ∧
      (∀ g ∈ s.fields, g.ID_Template ≠ tid → g ∈ s'.fields) ∧
      (∀ t ∈ s'.templates, t.ID ≠ tid) ∧
      (∀ t ∈ s.templates, t.ID ≠ tid → t ∈ s'.templates)) ∧
    (f1 = false → f2 = false →
      (TemplateRepository.delete_template_fx s tid f1 f2).1 =
        .ok (TemplateRepository.delete_template s tid)) := by
  unfold TemplateRepository.delete_template_fx TemplateRepository.delete_template
    deleteTemplateBody
  cases f1 with
  | true =>
    refine ⟨fun _ => rfl, ?_, ?_⟩
    · intro b s' h
      simp at h
    · intro h; cases h
  | false =>
    cases f2 with
    | true =>
      refine ⟨fun _ => rfl, ?_, ?_⟩
      · intro b s' h
        simp at h
      · intro _ h; cases h
    | false =>
      simp only [if_false, Bool.false_eq_true]
      refine ⟨?_, ?_, fun _ _ => by first | rfl | trivial⟩
      · rintro ⟨e, he⟩
        simp at he
      · intro b s' h
        simp only [Except.ok.injEq, Prod.mk.injEq] at h
        obtain ⟨hb, hs⟩ := h
        subst hb
        subst hs
        refine ⟨rfl, ?_, ?_, ?_, ?_, ?_, ?_⟩
        · rw [decide_eq_true_iff]
          rw [List.countP_pos_iff]
          constructor
          · rintro ⟨t, ht, hp⟩; exact ⟨t, ht, by simpa using hp⟩
          · rintro ⟨t, ht, hp⟩; exact ⟨t, ht, by simpa using hp⟩
        · unfold DBState.get_template_fields
          have hnil : (List.filter (fun f => f.ID_Template == tid)
              (List.filter (fun f => !(f.ID_Template == tid)) s.fields)) = [] := by
            rw [List.filter_eq_nil_iff]
            intro a ha
            have := (List.mem_filter.mp ha).2
            simpa using this
          rw [hnil]
          rfl
        · intro g hg
          have := (List.mem_filter.mp hg).2
          simpa using this
        · intro g hg hne
          exact List.mem_filter.mpr ⟨hg, by simpa using hne⟩
        · intro t ht
          have := (List.mem_filter.mp ht).2
          simpa using this
        · intro t ht hne
          exact List.mem_filter.mpr ⟨ht, by simpa using hne⟩

/-- Witness for C7: deleting template 1 from `c7state` returns `true`, leaves
no field of template 1, and a faulted run leaves the state unchanged. -/
theorem delete_template_txn_spec_witness :
    (true = true ↔ ∃ t ∈ c7state.templates, t.ID = 1) ∧
    c7post.get_template_fields 1 = [] ∧
    (TemplateRepository.delete_template_fx c7state 1 true false).2 = c7state := by
  have hok := (delete_template_txn_spec c7state 1 false false).2.1 true c7post rfl
  have hfault := (delete_template_txn_spec c7state 1 true false).1 ⟨.fault, rfl⟩
  exact ⟨hok.2.1, hok.2.2.1, hfault⟩


/-! ## C8: the connection retry policy -/

/-- C8: `initialize()` attempts to connect at most 3 times, stopping at the
first success (exactly `1`, `2` or `3` attempts depending on the oracle);
every delay between attempts is the fixed 2-second sleep, one fewer than the
attempts made; it succeeds iff one of the three attempts succeeds; if all
three fail it raises the error wrapping the cause of the final (third)
attempt; if an open connection exists at entry it is closed before anything
else; and on success the manager holds a fresh open connection. -/
theorem conn_init_retry_policy (conn : Option PyConn) (ok : Nat → Bool) :
    ((connInit conn ok).2.2.countP isAttempt =
      (if ok 0 then 1 else if ok 1 then 2 else 3)) ∧
    ((connInit conn ok).2.2.filter isSleep =
      List.replicate ((connInit conn ok).2.2.countP isAttempt - 1) (.sleepSecs 2)) ∧
    ((connInit conn ok).1 = .ok ↔ (ok 0 = true ∨ ok 1 = true ∨ ok 2 = true)) ∧
    ((ok 0 = false ∧ ok 1 = false ∧ ok 2 = false) → (connInit conn ok).1 = .err 2) ∧
    ((∃ c, conn = some c ∧ c.closed = false) →
      (connInit conn ok).2.2.head? = some .closePrev) ∧
    ((connInit conn ok).1 = .ok → (connInit conn ok).2.1 = some ⟨false⟩) := by
  rcases conn with _ | ⟨_ | _⟩ <;>
    (cases h0 : ok 0 <;> cases h1 : ok 1 <;> cases h2 : ok 2 <;>
      simp [connInit, connInitGo, h0, h1, h2, isAttempt, isSleep,
        List.countP_cons, List.countP_nil, List.replicate])

/-- Witness for C8: starting from an open connection with an oracle that only
succeeds on the third attempt, the trace closes the old connection first, its
sleeps are two 2-second delays, the call succeeds, and the final state holds
an open connection. -/
theorem conn_init_retry_policy_witness :
    (connInit (some ⟨false⟩) (fun n => n == 2)).2.2.countP isAttempt = 3 ∧
    (connInit (some ⟨false⟩) (fun n => n == 2)).2.2.filter isSleep =
      List.replicate 2 (.sleepSecs 2) ∧
    (connInit (some ⟨false⟩) (fun n => n == 2)).1 = .ok ∧
    (connInit (some ⟨false⟩) (fun n => n == 2)).2.2.head? = some .closePrev ∧
    (connInit (some ⟨false⟩) (fun n => n == 2)).2.1 = some ⟨false⟩ := by
  have h := conn_init_retry_policy (some ⟨false⟩) (fun n => n == 2)
  refine ⟨?_, ?_, ?_, ?_, ?_⟩
  · rw [h.1]; rfl
  · rw [h.2.1, h.1]; rfl
  · exact h.2.2.1.mpr (Or.inr (Or.inr rfl))
  · exact h.2.2.2.2.1 ⟨⟨false⟩, rfl, rfl⟩
  · exact h.2.2.2.2.2 (h.2.2.1.mpr (Or.inr (Or.inr rfl)))

end XDesigner
